import Mathlib

/-
Shallow embedding of the texture-lifecycle and upload-history subsystem of
`src/main.js` (class `GlobeViewer`).

Modelling conventions:
- Texture resources are opaque handles, modelled as `Nat`.  Binding a texture
  sets `currentTexture`; `dispose()` appends the handle to `disposedTextures`.
- JS numbers that the claims touch (light intensities, camera coordinates)
  are modelled as `Rat`; timestamps (`Date.now()` / `new Date()`) as `Nat`.
- The IndexedDB object store `textures` (keyPath `id`, index `timestamp`)
  is modelled as a list of records where `put` replaces the record with the
  same `id`; reading through the `timestamp` index with a `prev` cursor is
  modelled as sorting by `timestamp` descending (`List.insertionSort`).
- The asynchronous callbacks (FileReader.onload, Image.onload/onerror,
  IndexedDB onsuccess) all run on a single cooperative timeline, so each
  handler is a pure state-transition function; overlapping loads are modelled
  by running the completion handlers in their completion order.
- DOM side effects are reduced to the observable state the spec talks about:
  the loading overlay (`loadingVisible`), the transient error message
  (`errorMessage`), and an event log (`log`) recording the order of the
  texture/bind/settings operations a load performs.
-/

namespace GlobeViewer

/-- A 3-component vector (camera position / orbit target), `src/main.js` uses
`THREE.Vector3`-style `{x, y, z}` records. -/
structure V3 where
  x : Rat
  y : Rat
  z : Rat
deriving DecidableEq, Repr

/-- The `lighting` part of a saved-settings record
(`saveCurrentSettings`, src/main.js lines 816-823). -/
structure LightingSettings where
  ambientBrightness : Rat
  directionalBrightness : Rat
  lightRotation : Rat
deriving DecidableEq, Repr

/-- The `camera` part of a saved-settings record
(`saveCurrentSettings`, src/main.js lines 801-813). -/
structure CameraSettings where
  position : V3
  target : V3
deriving DecidableEq, Repr

/-- A saved-settings record.  `restoreSavedSettings` (lines 843-895) guards on
`savedSettings.lighting` and `savedSettings.camera` separately, so each part
is modelled as optional even though `saveCurrentSettings` always writes both. -/
structure SavedSettings where
  lighting : Option LightingSettings
  camera : Option CameraSettings
deriving DecidableEq, Repr

/-- An upload-history record (`addToUploadHistory`, src/main.js lines 646-654).
`timestamp` is the record's `createdAt` ordering key. -/
structure UploadEntry where
  id : Nat
  name : String
  thumbnailUrl : String
  originalDataUrl : String
  timestamp : Nat
  savedSettings : Option SavedSettings
deriving DecidableEq, Repr

/-- Observable events a load emits, in program order. -/
inductive Event where
  | showLoad : Event
  | dispose (t : Nat) : Event
  | bindTex (t : Nat) : Event
  | applySettings : Event
  | putHistory (id : Nat) : Event
  | toggleRotate : Event
  | hideLoad : Event
  | uiError : Event
deriving DecidableEq, Repr

/-- The relevant fields of a DOM `File` object. -/
structure JSFile where
  name : String
  type : String
  size : Nat
deriving DecidableEq, Repr

/-- The mutable state of the `GlobeViewer` instance (fields declared in the
constructor, src/main.js lines 5-30, plus the texture bound on
`globe.material.map`, the set of disposed texture handles and the event log). -/
structure ViewerState where
  currentTexture : Option Nat
  disposedTextures : List Nat
  autoRotate : Bool
  ambientBrightness : Rat
  directionalBrightness : Rat
  lightRotation : Rat
  cameraPosition : V3
  controlsTarget : V3
  uploadHistory : List UploadEntry
  currentUploadEntry : Option UploadEntry
  db : Option (List UploadEntry)
  loadingVisible : Bool
  errorMessage : Option String
  log : List Event
deriving DecidableEq, Repr

/-- The constructor defaults (src/main.js lines 5-30 and 46). -/
def initState : ViewerState :=
  { currentTexture := none
    disposedTextures := []
    autoRotate := true
    ambientBrightness := 9/10
    directionalBrightness := 12/10
    lightRotation := 45
    cameraPosition := ⟨0, 0, 3⟩
    controlsTarget := ⟨0, 0, 0⟩
    uploadHistory := []
    currentUploadEntry := none
    db := none
    loadingVisible := false
    errorMessage := none
    log := [] }

/-- `showLoading` (src/main.js lines 919-928). -/
def showLoading (s : ViewerState) : ViewerState :=
  { s with loadingVisible := true, log := s.log ++ [Event.showLoad] }

/-- `hideLoading` (src/main.js lines 930-935). -/
def hideLoading (s : ViewerState) : ViewerState :=
  { s with loadingVisible := false, log := s.log ++ [Event.hideLoad] }

/-- `showError` (src/main.js lines 301-310): shows a transient, auto-dismissing
error message. -/
def showError (s : ViewerState) (msg : String) : ViewerState :=
  { s with errorMessage := some msg, log := s.log ++ [Event.uiError] }

/-- `toggleAutoRotate` (src/main.js lines 492-506): flips the flag and syncs
the button / controls. -/
def toggleAutoRotate (s : ViewerState) : ViewerState :=
  { s with autoRotate := !s.autoRotate, log := s.log ++ [Event.toggleRotate] }

/-- The dispose-previous / create / bind-to-material block shared by the three
load paths (src/main.js lines 336-352, 519-540 and 570-585): dispose the
previously bound texture, then bind the freshly decoded one. -/
def applyTextureToGlobe (s : ViewerState) (t : Nat) : ViewerState :=
  let s1 :=
    match s.currentTexture with
    | some old =>
        { s with disposedTextures := s.disposedTextures ++ [old],
                 log := s.log ++ [Event.dispose old] }
    | none => s
  { s1 with currentTexture := some t, log := s1.log ++ [Event.bindTex t] }

/-- `restoreSavedSettings` (src/main.js lines 843-895): applies the lighting
block if present, then the camera block if present. -/
def restoreSavedSettings (s : ViewerState) (st : SavedSettings) : ViewerState :=
  let s0 := { s with log := s.log ++ [Event.applySettings] }
  let s1 :=
    match st.lighting with
    | some l =>
        { s0 with ambientBrightness := l.ambientBrightness,
                  directionalBrightness := l.directionalBrightness,
                  lightRotation := l.lightRotation }
    | none => s0
  match st.camera with
  | some c => { s1 with cameraPosition := c.position, controlsTarget := c.target }
  | none => s1

/-- The settings snapshot built by `saveCurrentSettings`
(src/main.js lines 801-823): always carries both a lighting and a camera part. -/
def mkSavedSettings (s : ViewerState) : SavedSettings :=
  { lighting := some ⟨s.ambientBrightness, s.directionalBrightness, s.lightRotation⟩
    camera := some ⟨s.cameraPosition, s.controlsTarget⟩ }

/-- Recency order on history records: `a` is at least as recent as `b`.
This is the order the `timestamp` index cursor with direction `prev` yields
(src/main.js lines 752-755). -/
def tsGe (a b : UploadEntry) : Prop := b.timestamp ≤ a.timestamp

instance : DecidableRel tsGe := fun a b => Nat.decLe b.timestamp a.timestamp

instance : IsTotal UploadEntry tsGe :=
  ⟨fun a b => (Nat.le_total b.timestamp a.timestamp).elim Or.inl Or.inr⟩

instance : IsTrans UploadEntry tsGe :=
  ⟨fun _ _ _ hab hbc => Nat.le_trans hbc hab⟩

/-- Reading all records through the `timestamp` index with a `prev` cursor:
newest first (src/main.js lines 750-762). -/
def readStoreByTimestampDesc (store : List UploadEntry) : List UploadEntry :=
  List.insertionSort tsGe store

/-- IndexedDB `store.put(entry)` on keyPath `id` (src/main.js line 735):
replaces the record with the same key, otherwise inserts. -/
def idbPut (store : List UploadEntry) (e : UploadEntry) : List UploadEntry :=
  if store.any (fun x => x.id = e.id) then
    store.map (fun x => if x.id = e.id then e else x)
  else
    store ++ [e]

/-- `loadUploadHistory` (src/main.js lines 745-779): when the DB is present,
re-read the full store newest-first and keep the 10 most recent as the
in-memory `uploadHistory`; without a DB it returns immediately. -/
def loadUploadHistory (s : ViewerState) : ViewerState :=
  match s.db with
  | none => s
  | some store =>
      { s with uploadHistory := (readStoreByTimestampDesc store).take 10 }

/-- `saveTextureToIndexedDB` (src/main.js lines 720-743): without a DB,
unshift into the in-memory list and truncate to 10; with a DB, `put` into the
store and refresh the view via `loadUploadHistory`. -/
def saveTextureToIndexedDB (s : ViewerState) (e : UploadEntry) : ViewerState :=
  match s.db with
  | none =>
      let h := e :: s.uploadHistory
      let h := if h.length > 10 then h.take 10 else h
      { s with uploadHistory := h, log := s.log ++ [Event.putHistory e.id] }
  | some store =>
      loadUploadHistory
        { s with db := some (idbPut store e), log := s.log ++ [Event.putHistory e.id] }

/-- `clearUploadHistory` (src/main.js lines 781-793). -/
def clearUploadHistory (s : ViewerState) : ViewerState :=
  { s with uploadHistory := [], db := s.db.map (fun _ => []) }

/-- `saveCurrentSettings` (src/main.js lines 795-841): with no current upload
entry, alert and change nothing; otherwise snapshot the current lighting and
camera into the current entry's `savedSettings` and persist it. -/
def saveCurrentSettings (s : ViewerState) : ViewerState :=
  match s.currentUploadEntry with
  | none => s
  | some e =>
      let e2 := { e with savedSettings := some (mkSavedSettings s) }
      saveTextureToIndexedDB { s with currentUploadEntry := some e2 } e2

/-- The display name computed for an upload: `file.name.split('.')[0]`
(src/main.js line 648), i.e. the characters of the file name strictly before
its first `'.'` (the whole name when it contains no dot, and `""` when it
starts with a dot — exactly what `split('.')[0]` yields). -/
def displayNameOf (fileName : String) : String :=
  String.mk (fileName.data.takeWhile (fun ch => ch ≠ '.'))

/-- `addToUploadHistory` (src/main.js lines 634-661): build the history record
(`savedSettings` starts as `null`), remember it as the current upload entry
and persist it.  `id` and `ts` stand for `Date.now() + Math.random()` and
`new Date()`. -/
def addToUploadHistory (s : ViewerState) (f : JSFile) (dataUrl thumb : String)
    (id ts : Nat) : ViewerState :=
  let e : UploadEntry :=
    { id := id
      name := displayNameOf f.name
      thumbnailUrl := thumb
      originalDataUrl := dataUrl
      timestamp := ts
      savedSettings := none }
  saveTextureToIndexedDB { s with currentUploadEntry := some e } e

/-- The accepted MIME types (src/main.js line 314). -/
def validTypes : List String :=
  ["image/jpeg", "image/jpg", "image/png", "image/webp"]

/-- The 50MB size threshold (src/main.js line 321). -/
def maxSize : Nat := 50 * 1024 * 1024

/-- The synchronous prefix of `loadTexture` (src/main.js lines 312-327):
validate the MIME type (rejecting before any read/decode starts), emit the
non-fatal size warning for oversized files, then show the loading overlay.
The boolean reports whether the load proceeds to the FileReader. -/
def loadTextureValidate (s : ViewerState) (f : JSFile) : ViewerState × Bool :=
  if f.type ∈ validTypes then
    let s1 :=
      if f.size > maxSize then
        showError s "Image file is quite large and may cause performance issues"
      else s
    (showLoading s1, true)
  else
    (showError s "Please drop a valid image file (JPG, PNG, or WebP)", false)

/-- The `img.onload` success handler of `loadTexture`
(src/main.js lines 334-385): bind the decoded texture, add the upload to
history, restart auto-rotation when it is off, hide the loading overlay. -/
def loadTextureOnload (s : ViewerState) (f : JSFile) (t : Nat)
    (dataUrl thumb : String) (id ts : Nat) : ViewerState :=
  let s1 := applyTextureToGlobe s t
  let s2 := addToUploadHistory s1 f dataUrl thumb id ts
  let s3 := if !s2.autoRotate then toggleAutoRotate s2 else s2
  hideLoading s3

/-- The `reader.onerror` handler of `loadTexture` (src/main.js lines 395-398). -/
def loadTextureReaderOnError (s : ViewerState) : ViewerState :=
  hideLoading (showError s "Failed to read file")

/-- The `img.onerror` handler of `loadTexture` (src/main.js lines 387-390). -/
def loadTextureImgOnError (s : ViewerState) : ViewerState :=
  hideLoading (showError s "Failed to load image - file may be corrupted")

/-- The `img.onload` success handler of `loadTextureFromUrl`
(src/main.js lines 516-549): bind the texture, restart auto-rotation when it
is off, hide the loading overlay.  It never touches `currentUploadEntry`,
`uploadHistory` or the DB. -/
def loadTextureFromUrlOnload (s : ViewerState) (t : Nat) : ViewerState :=
  let s1 := applyTextureToGlobe s t
  let s2 := if !s1.autoRotate then toggleAutoRotate s1 else s1
  hideLoading s2

/-- The `img.onload` success handler of `loadTextureFromDataUrl`
(src/main.js lines 566-624): bind the texture, set the current upload entry,
restore saved settings when present, then (line 612) toggle auto-rotation
when it is ON, and hide the loading overlay. -/
def loadTextureFromDataUrlOnload (s : ViewerState) (t : Nat)
    (savedSettings : Option SavedSettings) (uploadEntry : Option UploadEntry) :
    ViewerState :=
  let s1 := applyTextureToGlobe s t
  let s2 := { s1 with currentUploadEntry := uploadEntry }
  let s3 :=
    match savedSettings with
    | some st => restoreSavedSettings s2 st
    | none => s2
  let s4 := if s3.autoRotate then toggleAutoRotate s3 else s3
  hideLoading s4

/-- The `img.onerror` handler of `loadTextureFromDataUrl`
(src/main.js lines 626-629). -/
def loadTextureFromDataUrlImgOnError (s : ViewerState) : ViewerState :=
  hideLoading (showError s "Failed to load cached texture")

/-- All viewer state the spec calls "prior state" around a load: the bound
texture, the disposed set, the history and its current entry, the DB, the
auto-rotation flag and the lighting/camera settings.  `coreUnchanged s r`
says an operation taking `s` to `r` left all of it unchanged. -/
def coreUnchanged (s r : ViewerState) : Prop :=
  r.currentTexture = s.currentTexture ∧
  r.disposedTextures = s.disposedTextures ∧
  r.uploadHistory = s.uploadHistory ∧
  r.currentUploadEntry = s.currentUploadEntry ∧
  r.db = s.db ∧
  r.autoRotate = s.autoRotate ∧
  r.ambientBrightness = s.ambientBrightness ∧
  r.directionalBrightness = s.directionalBrightness ∧
  r.lightRotation = s.lightRotation ∧
  r.cameraPosition = s.cameraPosition ∧
  r.controlsTarget = s.controlsTarget

instance (s r : ViewerState) : Decidable (coreUnchanged s r) := by
  unfold coreUnchanged; infer_instance

/-- One decode completion of an in-flight `loadTexture` call: the file that
was read, the texture handle its decode produced, and the data the history
record is built from. -/
structure LoadCompletion where
  file : JSFile
  tex : Nat
  dataUrl : String
  thumb : String
  id : Nat
  ts : Nat
deriving DecidableEq, Repr

/-- Run the `img.onload` handlers of several in-flight `loadTexture` calls in
the order their decodes complete (single cooperative timeline). -/
def runLoadCompletions (s : ViewerState) (cs : List LoadCompletion) : ViewerState :=
  cs.foldl (fun st c => loadTextureOnload st c.file c.tex c.dataUrl c.thumb c.id c.ts) s

/-! ### Field-preservation facts for the embedded operations -/

@[simp] theorem save_currentTexture (s : ViewerState) (e : UploadEntry) :
    (saveTextureToIndexedDB s e).currentTexture = s.currentTexture := by
  cases hdb : s.db <;> simp [saveTextureToIndexedDB, loadUploadHistory, hdb]

@[simp] theorem save_disposedTextures (s : ViewerState) (e : UploadEntry) :
    (saveTextureToIndexedDB s e).disposedTextures = s.disposedTextures := by
  cases hdb : s.db <;> simp [saveTextureToIndexedDB, loadUploadHistory, hdb]

@[simp] theorem save_autoRotate (s : ViewerState) (e : UploadEntry) :
    (saveTextureToIndexedDB s e).autoRotate = s.autoRotate := by
  cases hdb : s.db <;> simp [saveTextureToIndexedDB, loadUploadHistory, hdb]

@[simp] theorem save_currentUploadEntry (s : ViewerState) (e : UploadEntry) :
    (saveTextureToIndexedDB s e).currentUploadEntry = s.currentUploadEntry := by
  cases hdb : s.db <;> simp [saveTextureToIndexedDB, loadUploadHistory, hdb]

@[simp] theorem save_log (s : ViewerState) (e : UploadEntry) :
    (saveTextureToIndexedDB s e).log = s.log ++ [Event.putHistory e.id] := by
  cases hdb : s.db <;> simp [saveTextureToIndexedDB, loadUploadHistory, hdb]

theorem save_db_none {s : ViewerState} (e : UploadEntry) (hdb : s.db = none) :
    (saveTextureToIndexedDB s e).db = none := by
  simp [saveTextureToIndexedDB, hdb]

theorem save_db_some {s : ViewerState} {store : List UploadEntry} (e : UploadEntry)
    (hdb : s.db = some store) :
    (saveTextureToIndexedDB s e).db = some (idbPut store e) ∧
    (saveTextureToIndexedDB s e).uploadHistory
      = (readStoreByTimestampDesc (idbPut store e)).take 10 := by
  simp [saveTextureToIndexedDB, loadUploadHistory, hdb]

@[simp] theorem apply_currentTexture (s : ViewerState) (t : Nat) :
    (applyTextureToGlobe s t).currentTexture = some t := by
  cases h : s.currentTexture <;> simp [applyTextureToGlobe, h]

@[simp] theorem apply_disposedTextures (s : ViewerState) (t : Nat) :
    (applyTextureToGlobe s t).disposedTextures
      = s.disposedTextures ++ s.currentTexture.toList := by
  cases h : s.currentTexture <;> simp [applyTextureToGlobe, h]

@[simp] theorem apply_autoRotate (s : ViewerState) (t : Nat) :
    (applyTextureToGlobe s t).autoRotate = s.autoRotate := by
  cases h : s.currentTexture <;> simp [applyTextureToGlobe, h]

@[simp] theorem apply_uploadHistory (s : ViewerState) (t : Nat) :
    (applyTextureToGlobe s t).uploadHistory = s.uploadHistory := by
  cases h : s.currentTexture <;> simp [applyTextureToGlobe, h]

@[simp] theorem apply_currentUploadEntry (s : ViewerState) (t : Nat) :
    (applyTextureToGlobe s t).currentUploadEntry = s.currentUploadEntry := by
  cases h : s.currentTexture <;> simp [applyTextureToGlobe, h]

@[simp] theorem apply_db (s : ViewerState) (t : Nat) :
    (applyTextureToGlobe s t).db = s.db := by
  cases h : s.currentTexture <;> simp [applyTextureToGlobe, h]

@[simp] theorem apply_ambient (s : ViewerState) (t : Nat) :
    (applyTextureToGlobe s t).ambientBrightness = s.ambientBrightness := by
  cases h : s.currentTexture <;> simp [applyTextureToGlobe, h]

@[simp] theorem apply_directional (s : ViewerState) (t : Nat) :
    (applyTextureToGlobe s t).directionalBrightness = s.directionalBrightness := by
  cases h : s.currentTexture <;> simp [applyTextureToGlobe, h]

@[simp] theorem apply_lightRotation (s : ViewerState) (t : Nat) :
    (applyTextureToGlobe s t).lightRotation = s.lightRotation := by
  cases h : s.currentTexture <;> simp [applyTextureToGlobe, h]

@[simp] theorem apply_cameraPosition (s : ViewerState) (t : Nat) :
    (applyTextureToGlobe s t).cameraPosition = s.cameraPosition := by
  cases h : s.currentTexture <;> simp [applyTextureToGlobe, h]

@[simp] theorem apply_controlsTarget (s : ViewerState) (t : Nat) :
    (applyTextureToGlobe s t).controlsTarget = s.controlsTarget := by
  cases h : s.currentTexture <;> simp [applyTextureToGlobe, h]

@[simp] theorem apply_log (s : ViewerState) (t : Nat) :
    (applyTextureToGlobe s t).log
      = s.log ++ s.currentTexture.toList.map Event.dispose ++ [Event.bindTex t] := by
  cases h : s.currentTexture <;> simp [applyTextureToGlobe, h]

/-- Effect of one `loadTexture` decode completion on the texture ownership
state: the completed decode's texture ends up bound, the previously bound
one (if any) is disposed, and auto-rotation ends up on. -/
theorem loadTextureOnload_effect (s : ViewerState) (f : JSFile) (t : Nat)
    (d th : String) (id ts : Nat) :
    (loadTextureOnload s f t d th id ts).currentTexture = some t ∧
    (loadTextureOnload s f t d th id ts).disposedTextures
      = s.disposedTextures ++ s.currentTexture.toList ∧
    (loadTextureOnload s f t d th id ts).autoRotate = true := by
  unfold loadTextureOnload addToUploadHistory
  by_cases h : s.autoRotate = true <;>
    simp [h, toggleAutoRotate, hideLoading]

/-- Running the decode-completion handlers of overlapping `loadTexture` calls
in completion order: the last completion's texture ends up bound, and the
initially bound texture plus every non-final completion's texture end up
disposed, in order. -/
theorem runLoadCompletions_effect (cs : List LoadCompletion) (s : ViewerState)
    (b0 : Nat) (hb : s.currentTexture = some b0) (hne : cs ≠ []) :
    (runLoadCompletions s cs).currentTexture = some ((cs.getLast hne).tex) ∧
    (runLoadCompletions s cs).disposedTextures
      = s.disposedTextures ++ b0 :: (cs.dropLast.map LoadCompletion.tex) := by
  induction cs generalizing s b0 with
  | nil => exact absurd rfl hne
  | cons c cs ih =>
    have hstep := loadTextureOnload_effect s c.file c.tex c.dataUrl c.thumb c.id c.ts
    cases cs with
    | nil =>
      constructor
      · exact hstep.1
      · rw [show runLoadCompletions s [c]
              = loadTextureOnload s c.file c.tex c.dataUrl c.thumb c.id c.ts from rfl,
            hstep.2.1, hb]
        simp
    | cons c2 cs2 =>
      have hne2 : c2 :: cs2 ≠ [] := List.cons_ne_nil _ _
      have ihh := ih (loadTextureOnload s c.file c.tex c.dataUrl c.thumb c.id c.ts)
        c.tex hstep.1 hne2
      have hrun : runLoadCompletions s (c :: c2 :: cs2)
          = runLoadCompletions
              (loadTextureOnload s c.file c.tex c.dataUrl c.thumb c.id c.ts)
              (c2 :: cs2) := rfl
      constructor
      · rw [hrun, ihh.1, List.getLast_cons hne2]
      · rw [hrun, ihh.2, hstep.2.1, hb, List.dropLast_cons₂]
        simp

/-- A `put` never grows the visible history beyond 10 entries. -/
theorem save_uploadHistory_length {s : ViewerState} (e : UploadEntry)
    (h : s.uploadHistory.length ≤ 10) :
    (saveTextureToIndexedDB s e).uploadHistory.length ≤ 10 := by
  cases hdb : s.db with
  | none =>
      simp only [saveTextureToIndexedDB, hdb]
      split
      · simp only [List.length_take]
        omega
      · next hgt =>
          simp only [gt_iff_lt, not_lt, List.length_cons] at hgt
          simp only [List.length_cons]
          omega
  | some store =>
      simp only [saveTextureToIndexedDB, loadUploadHistory, hdb, List.length_take]
      omega

/-- A `put` keeps the DB connection. -/
theorem save_db_isSome {s : ViewerState} (e : UploadEntry) (h : s.db.isSome) :
    (saveTextureToIndexedDB s e).db.isSome := by
  obtain ⟨store, hdb⟩ := Option.isSome_iff_exists.mp h
  rw [(save_db_some e hdb).1]
  rfl

/-- In store-backed mode, the history view after a `put` is sorted by
`createdAt` descending (non-strictly). -/
theorem save_uploadHistory_sorted {s : ViewerState} {store : List UploadEntry}
    (e : UploadEntry) (hdb : s.db = some store) :
    (saveTextureToIndexedDB s e).uploadHistory.Pairwise tsGe := by
  rw [(save_db_some e hdb).2]
  exact List.Pairwise.sublist (List.take_sublist _ _)
    (List.sorted_insertionSort tsGe (idbPut store e))

/-- C3 (counterexample): in in-memory fallback mode (store unavailable), the
put sequence e1 (createdAt 1), e2 (createdAt 2), e1 again (a settings re-save
of an older entry) yields the view [e1, e2, e1]: neither strictly nor even
non-strictly ordered by createdAt descending, and holding a duplicate. -/
theorem C3_counterexample :
    (saveTextureToIndexedDB (saveTextureToIndexedDB (saveTextureToIndexedDB initState
          ⟨1, "x", "t1", "d1", 1, none⟩) ⟨2, "y", "t2", "d2", 2, none⟩)
          ⟨1, "x", "t1", "d1", 1, none⟩).uploadHistory
      = [⟨1, "x", "t1", "d1", 1, none⟩, ⟨2, "y", "t2", "d2", 2, none⟩,
         ⟨1, "x", "t1", "d1", 1, none⟩] ∧
    ¬ List.Pairwise (fun a b : UploadEntry => b.timestamp < a.timestamp)
        (saveTextureToIndexedDB (saveTextureToIndexedDB (saveTextureToIndexedDB initState
            ⟨1, "x", "t1", "d1", 1, none⟩) ⟨2, "y", "t2", "d2", 2, none⟩)
            ⟨1, "x", "t1", "d1", 1, none⟩).uploadHistory ∧
    ¬ List.Pairwise tsGe
        (saveTextureToIndexedDB (saveTextureToIndexedDB (saveTextureToIndexedDB initState
            ⟨1, "x", "t1", "d1", 1, none⟩) ⟨2, "y", "t2", "d2", 2, none⟩)
            ⟨1, "x", "t1", "d1", 1, none⟩).uploadHistory := by
  decide

/-- C3 (amended): for every sequence of `put` calls, the visible history keeps
at most 10 entries (both modes, given it starts within capacity); in
store-backed mode it is additionally ordered by `createdAt` descending
(non-strictly) after any non-empty put sequence.  In fallback mode the order
is newest-put-first, which need not follow `createdAt` (see the
counterexample). -/
theorem C3_amended_capacity_and_store_order (es : List UploadEntry) (s : ViewerState) :
    (s.uploadHistory.length ≤ 10 →
      ((es.foldl saveTextureToIndexedDB s).uploadHistory).length ≤ 10) ∧
    (es ≠ [] → s.db.isSome →
      ((es.foldl saveTextureToIndexedDB s).uploadHistory).Pairwise tsGe) := by
  induction es generalizing s with
  | nil => exact ⟨fun h => h, fun hne _ => absurd rfl hne⟩
  | cons e es ih =>
      constructor
      · intro h
        exact (ih (saveTextureToIndexedDB s e)).1 (save_uploadHistory_length e h)
      · intro _ hsome
        cases es with
        | nil =>
            obtain ⟨store, hdb⟩ := Option.isSome_iff_exists.mp hsome
            exact save_uploadHistory_sorted e hdb
        | cons e2 es2 =>
            exact (ih (saveTextureToIndexedDB s e)).2 (List.cons_ne_nil _ _)
              (save_db_isSome e hsome)

/-- Witness for the amended C3 theorem: one put into an available empty store. -/
theorem C3_amended_capacity_and_store_order_witness :
    (([⟨1, "x", "t1", "d1", 1, none⟩] : List UploadEntry).foldl saveTextureToIndexedDB
        { initState with db := some [] }).uploadHistory.length ≤ 10 ∧
    (([⟨1, "x", "t1", "d1", 1, none⟩] : List UploadEntry).foldl saveTextureToIndexedDB
        { initState with db := some [] }).uploadHistory.Pairwise tsGe := by
  have h := C3_amended_capacity_and_store_order [⟨1, "x", "t1", "d1", 1, none⟩]
    { initState with db := some [] }
  exact ⟨h.1 (by decide), h.2 (List.cons_ne_nil _ _) (by decide)⟩

/-- C4 (counterexample): store-backed history with 10 entries (createdAt
1..10) receiving an 11th: the in-memory view drops the oldest entry, but the
persistent store still holds all 11 records — eviction does NOT remove the
oldest entry from the store, so store and in-memory list are not updated
together. -/
theorem C4_counterexample :
    let store0 : List UploadEntry :=
      (List.range 10).map (fun i => ⟨i + 1, "", "", "", i + 1, none⟩)
    let s2 := saveTextureToIndexedDB { initState with db := some store0 }
      ⟨11, "", "", "", 11, none⟩
    s2.db = some (store0 ++ [⟨11, "", "", "", 11, none⟩]) ∧
    (s2.db.getD []).length = 11 ∧
    (⟨1, "", "", "", 1, none⟩ : UploadEntry) ∈ s2.db.getD [] ∧
    (⟨1, "", "", "", 1, none⟩ : UploadEntry) ∉ s2.uploadHistory ∧
    s2.uploadHistory.length = 10 ∧
    s2.uploadHistory.map UploadEntry.id = [11, 10, 9, 8, 7, 6, 5, 4, 3, 2] := by
  decide

/-- C4 (amended): when a store-backed `put` leaves the store with 11 records
of pairwise-distinct `createdAt`, the in-memory view (getAll) drops exactly
the record with the oldest `createdAt` and keeps the other 10; the persistent
store itself is not pruned — it retains all 11 records, including the evicted
one. -/
theorem C4_amended_view_evicts_oldest_store_keeps_all (s : ViewerState)
    (store : List UploadEntry) (e : UploadEntry) (hdb : s.db = some store)
    (hlen : (idbPut store e).length = 11)
    (hdist : List.Pairwise (fun a b : UploadEntry => a.timestamp ≠ b.timestamp)
      (idbPut store e)) :
    (saveTextureToIndexedDB s e).db = some (idbPut store e) ∧
    ∃ m ∈ idbPut store e,
      (∀ x ∈ idbPut store e, m.timestamp ≤ x.timestamp) ∧
      m ∉ (saveTextureToIndexedDB s e).uploadHistory ∧
      ∀ x ∈ idbPut store e, x ≠ m → x ∈ (saveTextureToIndexedDB s e).uploadHistory := by
  obtain ⟨hdb2, hup⟩ := save_db_some e hdb
  set ns := idbPut store e with hns
  set v := readStoreByTimestampDesc ns with hv
  have hperm : v.Perm ns := List.perm_insertionSort tsGe ns
  have hlenv : v.length = 11 := by rw [hperm.length_eq]; exact hlen
  have hvne : v ≠ [] := by
    intro hcon
    rw [hcon] at hlenv
    exact absurd hlenv (by decide)
  have hsplit : v.dropLast ++ [v.getLast hvne] = v := List.dropLast_append_getLast hvne
  have hsortv : List.Pairwise tsGe v := List.sorted_insertionSort tsGe ns
  have hdistv : List.Pairwise (fun a b : UploadEntry => a.timestamp ≠ b.timestamp) v :=
    (hperm.pairwise_iff (fun h => Ne.symm h)).mpr hdist
  have htake : v.take 10 = v.dropLast := by
    rw [List.dropLast_eq_take, hlenv]
  refine ⟨hdb2, v.getLast hvne, hperm.mem_iff.mp (List.getLast_mem hvne), ?_, ?_, ?_⟩
  · intro x hx
    have hxv : x ∈ v := hperm.mem_iff.mpr hx
    rw [← hsplit] at hxv
    rcases List.mem_append.mp hxv with hxd | hxm
    · have hpa := List.pairwise_append.mp (by rw [hsplit]; exact hsortv)
      exact hpa.2.2 x hxd _ (List.mem_singleton_self _)
    · obtain rfl := List.mem_singleton.mp hxm
      exact le_rfl
  · rw [hup, htake]
    intro hmem
    have hpa := List.pairwise_append.mp (by rw [hsplit]; exact hdistv)
    exact hpa.2.2 _ hmem _ (List.mem_singleton_self _) rfl
  · intro x hx hxm
    rw [hup, htake]
    have hxv : x ∈ v := hperm.mem_iff.mpr hx
    rw [← hsplit] at hxv
    rcases List.mem_append.mp hxv with h3 | h3
    · exact h3
    · exact absurd (List.mem_singleton.mp h3) hxm

/-- Witness for the amended C4 theorem at the concrete 10+1 store. -/
theorem C4_amended_view_evicts_oldest_store_keeps_all_witness :
    let store0 : List UploadEntry :=
      (List.range 10).map (fun i => ⟨i + 1, "", "", "", i + 1, none⟩)
    let e11 : UploadEntry := ⟨11, "", "", "", 11, none⟩
    (saveTextureToIndexedDB { initState with db := some store0 } e11).db
      = some (idbPut store0 e11) ∧
    ∃ m ∈ idbPut store0 e11,
      (∀ x ∈ idbPut store0 e11, m.timestamp ≤ x.timestamp) ∧
      m ∉ (saveTextureToIndexedDB { initState with db := some store0 } e11).uploadHistory ∧
      ∀ x ∈ idbPut store0 e11, x ≠ m →
        x ∈ (saveTextureToIndexedDB { initState with db := some store0 } e11).uploadHistory :=
  C4_amended_view_evicts_oldest_store_keeps_all _ _ _ rfl (by decide) (by decide)

/-- C5 (counterexample): in in-memory fallback mode, `put` with an `id`
matching an existing entry does not replace it: re-putting the same entry
leaves two copies with the same id in the collection. -/
theorem C5_counterexample :
    (saveTextureToIndexedDB (saveTextureToIndexedDB initState ⟨1, "x", "t", "d", 1, none⟩)
        ⟨1, "x", "t", "d", 1, none⟩).uploadHistory
      = [⟨1, "x", "t", "d", 1, none⟩, ⟨1, "x", "t", "d", 1, none⟩] ∧
    ¬ ((saveTextureToIndexedDB (saveTextureToIndexedDB initState ⟨1, "x", "t", "d", 1, none⟩)
        ⟨1, "x", "t", "d", 1, none⟩).uploadHistory.map UploadEntry.id).Nodup := by
  decide

/-- C5 (amended): in store-backed mode, `put` with a matching `id` replaces
the entry in place: the store keeps no duplicate ids, its size does not grow
on a matching put, the new entry is present, and the visible history view has
no duplicate ids either.  In in-memory fallback mode the put is an
unconditional prepend, so a matching `id` produces a duplicate (see the
counterexample). -/
theorem C5_amended_store_put_replaces_by_id (s : ViewerState)
    (store : List UploadEntry) (e : UploadEntry) (hdb : s.db = some store)
    (hnd : (store.map UploadEntry.id).Nodup) :
    (saveTextureToIndexedDB s e).db = some (idbPut store e) ∧
    ((idbPut store e).map UploadEntry.id).Nodup ∧
    e ∈ idbPut store e ∧
    (store.any (fun x => x.id = e.id) = true → (idbPut store e).length = store.length) ∧
    ((saveTextureToIndexedDB s e).uploadHistory.map UploadEntry.id).Nodup := by
  obtain ⟨hdb2, hup⟩ := save_db_some e hdb
  have hids : ((idbPut store e).map UploadEntry.id).Nodup ∧ e ∈ idbPut store e ∧
      (store.any (fun x => x.id = e.id) = true → (idbPut store e).length = store.length) := by
    cases hany : store.any (fun x => x.id = e.id) with
    | true =>
        obtain ⟨x, hxmem, hxid⟩ := List.any_eq_true.mp hany
        have hxid2 : x.id = e.id := of_decide_eq_true hxid
        refine ⟨?_, ?_, fun _ => by simp [idbPut, hany]⟩
        · have hsame : (idbPut store e).map UploadEntry.id = store.map UploadEntry.id := by
            simp only [idbPut, hany, if_true, List.map_map]
            apply List.map_congr_left
            intro a _
            by_cases h : a.id = e.id <;> simp [h, Function.comp]
          rw [hsame]
          exact hnd
        · simp only [idbPut, hany, if_true]
          exact List.mem_map.mpr ⟨x, hxmem, by simp [hxid2]⟩
    | false =>
        have hnotin : ∀ x ∈ store, x.id ≠ e.id := by
          intro x hx
          have hfx := List.any_eq_false.mp hany x hx
          simpa using hfx
        refine ⟨?_, ?_, fun hcon => by simp [hany] at hcon⟩
        · simp only [idbPut, hany, Bool.false_eq_true, if_false, List.map_append,
            List.map_cons, List.map_nil]
          rw [List.nodup_append]
          refine ⟨hnd, List.nodup_singleton _, ?_⟩
          intro a ha hamem
          obtain ⟨x, hx, hxa⟩ := List.mem_map.mp ha
          have : a = e.id := by simpa using hamem
          exact hnotin x hx (hxa.trans this)
        · simp [idbPut, hany]
  refine ⟨hdb2, hids.1, hids.2.1, hids.2.2, ?_⟩
  rw [hup]
  have hperm := List.perm_insertionSort tsGe (idbPut store e)
  have hnodv : ((readStoreByTimestampDesc (idbPut store e)).map UploadEntry.id).Nodup :=
    ((hperm.map UploadEntry.id).nodup_iff).mpr hids.1
  exact List.Nodup.sublist (List.Sublist.map _ (List.take_sublist _ _)) hnodv

/-- Witness for the amended C5 theorem: replacing the single entry of a
store-backed history with a same-id update. -/
theorem C5_amended_store_put_replaces_by_id_witness :
    (saveTextureToIndexedDB
        { initState with db := some [⟨1, "x", "t", "d", 1, none⟩] }
        ⟨1, "x", "t", "d", 2, none⟩).db
      = some (idbPut [⟨1, "x", "t", "d", 1, none⟩] ⟨1, "x", "t", "d", 2, none⟩) ∧
    ((idbPut [⟨1, "x", "t", "d", 1, none⟩] ⟨1, "x", "t", "d", 2, none⟩).map
        UploadEntry.id).Nodup ∧
    (⟨1, "x", "t", "d", 2, none⟩ : UploadEntry)
      ∈ idbPut [⟨1, "x", "t", "d", 1, none⟩] ⟨1, "x", "t", "d", 2, none⟩ ∧
    (([⟨1, "x", "t", "d", 1, none⟩] : List UploadEntry).any
        (fun x => x.id = (⟨1, "x", "t", "d", 2, none⟩ : UploadEntry).id) = true →
      (idbPut [⟨1, "x", "t", "d", 1, none⟩] ⟨1, "x", "t", "d", 2, none⟩).length
        = ([⟨1, "x", "t", "d", 1, none⟩] : List UploadEntry).length) ∧
    ((saveTextureToIndexedDB
        { initState with db := some [⟨1, "x", "t", "d", 1, none⟩] }
        ⟨1, "x", "t", "d", 2, none⟩).uploadHistory.map UploadEntry.id).Nodup :=
  C5_amended_store_put_replaces_by_id _ _ _ rfl (by decide)

/-- C1 (counterexample): two overlapping loads on the same target, A (texture
handle 1, slow decode) started first, B (texture handle 2, fast decode)
started while A is pending.  B's decode completes first, then A's.  The claim
says the final bound texture is B's and A's texture is released; the code
instead binds A's texture (the last decode to complete), and it is B's
texture that gets disposed. -/
theorem C1_counterexample :
    (runLoadCompletions { initState with currentTexture := some 0 }
        [⟨⟨"b.jpg", "image/jpeg", 4⟩, 2, "dB", "tB", 12, 12⟩,
         ⟨⟨"a.jpg", "image/jpeg", 4⟩, 1, "dA", "tA", 11, 11⟩]).currentTexture = some 1 ∧
    (runLoadCompletions { initState with currentTexture := some 0 }
        [⟨⟨"b.jpg", "image/jpeg", 4⟩, 2, "dB", "tB", 12, 12⟩,
         ⟨⟨"a.jpg", "image/jpeg", 4⟩, 1, "dA", "tA", 11, 11⟩]).currentTexture ≠ some 2 ∧
    2 ∈ (runLoadCompletions { initState with currentTexture := some 0 }
        [⟨⟨"b.jpg", "image/jpeg", 4⟩, 2, "dB", "tB", 12, 12⟩,
         ⟨⟨"a.jpg", "image/jpeg", 4⟩, 1, "dA", "tA", 11, 11⟩]).disposedTextures ∧
    1 ∉ (runLoadCompletions { initState with currentTexture := some 0 }
        [⟨⟨"b.jpg", "image/jpeg", 4⟩, 2, "dB", "tB", 12, 12⟩,
         ⟨⟨"a.jpg", "image/jpeg", 4⟩, 1, "dA", "tA", 11, 11⟩]).disposedTextures := by
  decide

/-- C1 (amended): for overlapping load operations on the same target there is
no supersession check, so it is the load whose decode completes LAST whose
bind wins, not the later-initiated call's.  What does hold: each completion
first disposes the previously bound texture, so the initially bound texture
and every superseded completion's texture are all released (no leak), and
every texture ever bound is either the single finally bound one or disposed —
never two retained. -/
theorem C1_amended_last_completion_wins (s : ViewerState) (b0 : Nat)
    (cs : List LoadCompletion) (hb : s.currentTexture = some b0) (hne : cs ≠ []) :
    (runLoadCompletions s cs).currentTexture = some ((cs.getLast hne).tex) ∧
    (runLoadCompletions s cs).disposedTextures
      = s.disposedTextures ++ b0 :: (cs.dropLast.map LoadCompletion.tex) ∧
    ∀ x ∈ b0 :: cs.map LoadCompletion.tex,
      x = (cs.getLast hne).tex ∨ x ∈ (runLoadCompletions s cs).disposedTextures := by
  obtain ⟨h1, h2⟩ := runLoadCompletions_effect cs s b0 hb hne
  refine ⟨h1, h2, ?_⟩
  intro x hx
  have hmap : cs.map LoadCompletion.tex
      = cs.dropLast.map LoadCompletion.tex ++ [(cs.getLast hne).tex] := by
    conv_lhs => rw [← List.dropLast_append_getLast hne]
    simp
  rcases List.mem_cons.mp hx with rfl | hx2
  · right
    rw [h2]
    simp
  · rw [hmap] at hx2
    rcases List.mem_append.mp hx2 with h3 | h3
    · right
      rw [h2]
      simp only [List.mem_append, List.mem_cons]
      exact Or.inr (Or.inr h3)
    · left
      simpa using h3

/-- Witness for the amended C1 theorem at the concrete two-load scenario. -/
theorem C1_amended_last_completion_wins_witness :
    (runLoadCompletions { initState with currentTexture := some 0 }
        [⟨⟨"b.jpg", "image/jpeg", 4⟩, 2, "dB", "tB", 12, 12⟩,
         ⟨⟨"a.jpg", "image/jpeg", 4⟩, 1, "dA", "tA", 11, 11⟩]).currentTexture = some 1 ∧
    (runLoadCompletions { initState with currentTexture := some 0 }
        [⟨⟨"b.jpg", "image/jpeg", 4⟩, 2, "dB", "tB", 12, 12⟩,
         ⟨⟨"a.jpg", "image/jpeg", 4⟩, 1, "dA", "tA", 11, 11⟩]).disposedTextures = [0, 2] := by
  have h := C1_amended_last_completion_wins { initState with currentTexture := some 0 } 0
    [⟨⟨"b.jpg", "image/jpeg", 4⟩, 2, "dB", "tB", 12, 12⟩,
     ⟨⟨"a.jpg", "image/jpeg", 4⟩, 1, "dA", "tA", 11, 11⟩] rfl (List.cons_ne_nil _ _)
  exact ⟨h.1, h.2.1⟩

/-- C2 (code bug at src/main.js line 612): the history-entry (cached data URL)
load path toggles auto-rotation whenever it is ON, i.e. it STOPS auto-rotation
instead of re-enabling it, contradicting its own comment "Restart
auto-rotation when new texture is loaded"; after a cached-entry load
auto-rotation is always off.  The file-upload and preset-URL paths do re-arm
it as the claim states. -/
theorem C2_code_bug_cached_load_stops_autorotation :
    (loadTextureFromDataUrlOnload { initState with autoRotate := true } 5 none none).autoRotate
      = false ∧
    (loadTextureFromDataUrlOnload { initState with autoRotate := false } 5 none none).autoRotate
      = false ∧
    (loadTextureOnload { initState with autoRotate := false }
        ⟨"earth.jpg", "image/jpeg", 4⟩ 5 "d" "t" 1 1).autoRotate = true ∧
    (loadTextureOnload { initState with autoRotate := true }
        ⟨"earth.jpg", "image/jpeg", 4⟩ 5 "d" "t" 1 1).autoRotate = true ∧
    (loadTextureFromUrlOnload { initState with autoRotate := false } 5).autoRotate = true ∧
    (loadTextureFromUrlOnload { initState with autoRotate := true } 5).autoRotate = true := by
  decide

/-- C9 (code bug at src/main.js line 648): the comment says "Filename without
extension" and the spec says "stem only", but `file.name.split('.')[0]` keeps
only the part before the FIRST dot: a file named `a.b.png` yields the history
entry name `"a"`, not the stem `"a.b"`. -/
theorem C9_code_bug_name_truncated_at_first_dot :
    displayNameOf "a.b.png" = "a" ∧
    ("a" : String) ≠ "a.b" ∧
    ((addToUploadHistory initState ⟨"a.b.png", "image/png", 4⟩ "d" "t" 1 1).currentUploadEntry).map
        UploadEntry.name = some "a" ∧
    ((addToUploadHistory initState ⟨"a.b.png", "image/png", 4⟩ "d" "t" 1 1).uploadHistory).map
        UploadEntry.name = ["a"] := by
  decide

/-- C6: settings produced by `saveCurrentSettings` always carry both a
lighting and a camera part; for a cached-entry load whose `savedSettings` has
both parts, all three lighting fields and both camera fields are applied (all
of them), the new texture is bound, and the settings-application event occurs
immediately — hence strictly — after the bind event; with `savedSettings`
absent, lighting and camera are left unchanged and no settings application
happens at all. -/
theorem C6_settings_applied_atomically_after_bind (s : ViewerState) (t : Nat)
    (st : SavedSettings) (l : LightingSettings) (c : CameraSettings)
    (entry : Option UploadEntry)
    (hl : st.lighting = some l) (hc : st.camera = some c) :
    ((mkSavedSettings s).lighting.isSome ∧ (mkSavedSettings s).camera.isSome) ∧
    ((loadTextureFromDataUrlOnload s t (some st) entry).ambientBrightness
        = l.ambientBrightness ∧
      (loadTextureFromDataUrlOnload s t (some st) entry).directionalBrightness
        = l.directionalBrightness ∧
      (loadTextureFromDataUrlOnload s t (some st) entry).lightRotation
        = l.lightRotation ∧
      (loadTextureFromDataUrlOnload s t (some st) entry).cameraPosition = c.position ∧
      (loadTextureFromDataUrlOnload s t (some st) entry).controlsTarget = c.target ∧
      (loadTextureFromDataUrlOnload s t (some st) entry).currentTexture = some t ∧
      ∃ pre suf, (loadTextureFromDataUrlOnload s t (some st) entry).log
          = s.log ++ pre ++ [Event.bindTex t, Event.applySettings] ++ suf ∧
        Event.applySettings ∉ pre) ∧
    ((loadTextureFromDataUrlOnload s t none entry).ambientBrightness
        = s.ambientBrightness ∧
      (loadTextureFromDataUrlOnload s t none entry).directionalBrightness
        = s.directionalBrightness ∧
      (loadTextureFromDataUrlOnload s t none entry).lightRotation = s.lightRotation ∧
      (loadTextureFromDataUrlOnload s t none entry).cameraPosition = s.cameraPosition ∧
      (loadTextureFromDataUrlOnload s t none entry).controlsTarget = s.controlsTarget ∧
      ∃ suf2, (loadTextureFromDataUrlOnload s t none entry).log = s.log ++ suf2 ∧
        Event.applySettings ∉ suf2) := by
  refine ⟨⟨rfl, rfl⟩, ?_, ?_⟩
  · cases hct : s.currentTexture with
    | none =>
        by_cases har : s.autoRotate = true
        · refine ⟨?_, ?_, ?_, ?_, ?_, ?_, [], [Event.toggleRotate, Event.hideLoad],
            ?_, ?_⟩ <;>
            simp [loadTextureFromDataUrlOnload, restoreSavedSettings, hl, hc,
              applyTextureToGlobe, hct, har, hideLoading, toggleAutoRotate]
        · refine ⟨?_, ?_, ?_, ?_, ?_, ?_, [], [Event.hideLoad], ?_, ?_⟩ <;>
            simp [loadTextureFromDataUrlOnload, restoreSavedSettings, hl, hc,
              applyTextureToGlobe, hct, har, hideLoading, toggleAutoRotate]
    | some old =>
        by_cases har : s.autoRotate = true
        · refine ⟨?_, ?_, ?_, ?_, ?_, ?_, [Event.dispose old],
            [Event.toggleRotate, Event.hideLoad], ?_, ?_⟩ <;>
            simp [loadTextureFromDataUrlOnload, restoreSavedSettings, hl, hc,
              applyTextureToGlobe, hct, har, hideLoading, toggleAutoRotate]
        · refine ⟨?_, ?_, ?_, ?_, ?_, ?_, [Event.dispose old], [Event.hideLoad],
            ?_, ?_⟩ <;>
            simp [loadTextureFromDataUrlOnload, restoreSavedSettings, hl, hc,
              applyTextureToGlobe, hct, har, hideLoading, toggleAutoRotate]
  · cases hct : s.currentTexture with
    | none =>
        by_cases har : s.autoRotate = true
        · refine ⟨?_, ?_, ?_, ?_, ?_,
            [Event.bindTex t, Event.toggleRotate, Event.hideLoad], ?_, ?_⟩ <;>
            simp [loadTextureFromDataUrlOnload, applyTextureToGlobe, hct, har,
              hideLoading, toggleAutoRotate]
        · refine ⟨?_, ?_, ?_, ?_, ?_, [Event.bindTex t, Event.hideLoad], ?_, ?_⟩ <;>
            simp [loadTextureFromDataUrlOnload, applyTextureToGlobe, hct, har,
              hideLoading, toggleAutoRotate]
    | some old =>
        by_cases har : s.autoRotate = true
        · refine ⟨?_, ?_, ?_, ?_, ?_,
            [Event.dispose old, Event.bindTex t, Event.toggleRotate, Event.hideLoad],
            ?_, ?_⟩ <;>
            simp [loadTextureFromDataUrlOnload, applyTextureToGlobe, hct, har,
              hideLoading, toggleAutoRotate]
        · refine ⟨?_, ?_, ?_, ?_, ?_,
            [Event.dispose old, Event.bindTex t, Event.hideLoad], ?_, ?_⟩ <;>
            simp [loadTextureFromDataUrlOnload, applyTextureToGlobe, hct, har,
              hideLoading, toggleAutoRotate]

/-- Witness for C6 at a concrete saved-settings load and a settings-free load. -/
theorem C6_settings_applied_atomically_after_bind_witness :
    (loadTextureFromDataUrlOnload initState 3
        (some (mkSavedSettings { initState with ambientBrightness := 2 }))
        none).ambientBrightness = 2 ∧
    (loadTextureFromDataUrlOnload initState 3 none none).ambientBrightness
      = initState.ambientBrightness := by
  have h := C6_settings_applied_atomically_after_bind initState 3
    (mkSavedSettings { initState with ambientBrightness := 2 })
    ⟨2, 12/10, 45⟩ ⟨⟨0, 0, 3⟩, ⟨0, 0, 0⟩⟩ none rfl rfl
  exact ⟨h.2.1.1, h.2.2.1⟩

/-- C7: `loadTexture` proceeds past validation exactly when the file's MIME
type is one of image/jpeg, image/jpg, image/png, image/webp; a file with any
other type is rejected before any read or decode starts, with only a
transient error message shown — history, bound texture and all other state
untouched, and the loading overlay never shown.  A valid-typed file larger
than 50MB gets the non-fatal size-warning message and the load proceeds. -/
theorem C7_validation_rejects_bad_mime_warns_oversize (s : ViewerState) (f : JSFile) :
    ((loadTextureValidate s f).2 = true ↔ f.type ∈ validTypes) ∧
    (f.type ∉ validTypes →
      ((loadTextureValidate s f).2 = false ∧
       coreUnchanged s (loadTextureValidate s f).1 ∧
       (loadTextureValidate s f).1.loadingVisible = s.loadingVisible ∧
       (loadTextureValidate s f).1.errorMessage
         = some "Please drop a valid image file (JPG, PNG, or WebP)")) ∧
    (f.type ∈ validTypes → f.size > maxSize →
      ((loadTextureValidate s f).2 = true ∧
       (loadTextureValidate s f).1.errorMessage
         = some "Image file is quite large and may cause performance issues" ∧
       coreUnchanged s (loadTextureValidate s f).1 ∧
       (loadTextureValidate s f).1.loadingVisible = true)) := by
  by_cases ht : f.type ∈ validTypes <;> by_cases hs : f.size > maxSize <;>
    simp [loadTextureValidate, ht, hs, showError, showLoading, coreUnchanged]

/-- Witness for C7: a PDF drop is rejected with state unchanged; an oversized
JPEG proceeds with the size warning. -/
theorem C7_validation_rejects_bad_mime_warns_oversize_witness :
    (loadTextureValidate initState ⟨"doc.pdf", "application/pdf", 4⟩).2 = false ∧
    coreUnchanged initState
      (loadTextureValidate initState ⟨"doc.pdf", "application/pdf", 4⟩).1 ∧
    (loadTextureValidate initState ⟨"big.jpg", "image/jpeg", 52428801⟩).2 = true ∧
    (loadTextureValidate initState ⟨"big.jpg", "image/jpeg", 52428801⟩).1.errorMessage
      = some "Image file is quite large and may cause performance issues" := by
  have h1 := C7_validation_rejects_bad_mime_warns_oversize initState
    ⟨"doc.pdf", "application/pdf", 4⟩
  have h2 := C7_validation_rejects_bad_mime_warns_oversize initState
    ⟨"big.jpg", "image/jpeg", 52428801⟩
  exact ⟨(h1.2.1 (by decide)).1, (h1.2.1 (by decide)).2.1,
    (h2.2.2 (by decide) (by decide)).1, (h2.2.2 (by decide) (by decide)).2.1⟩

/-- C8: whichever way the decode of a load fails — the FileReader erroring,
the upload image failing to decode, or a cached data-URL image failing to
decode — the handler only shows the error message and hides the loading
overlay: the bound texture, disposed set, history, current entry, DB,
auto-rotation and lighting/camera settings are all exactly as before the
load began, and the handler is a total function (no crash). -/
theorem C8_decode_failure_leaves_state_intact (s : ViewerState) (f : JSFile)
    (hty : f.type ∈ validTypes) :
    ((loadTextureValidate s f).2 = true ∧
     coreUnchanged s (loadTextureReaderOnError (loadTextureValidate s f).1) ∧
     (loadTextureReaderOnError (loadTextureValidate s f).1).errorMessage
       = some "Failed to read file" ∧
     (loadTextureReaderOnError (loadTextureValidate s f).1).loadingVisible = false) ∧
    (coreUnchanged s (loadTextureImgOnError (loadTextureValidate s f).1) ∧
     (loadTextureImgOnError (loadTextureValidate s f).1).errorMessage
       = some "Failed to load image - file may be corrupted" ∧
     (loadTextureImgOnError (loadTextureValidate s f).1).loadingVisible = false) ∧
    (coreUnchanged s (loadTextureFromDataUrlImgOnError (showLoading s)) ∧
     (loadTextureFromDataUrlImgOnError (showLoading s)).errorMessage
       = some "Failed to load cached texture" ∧
     (loadTextureFromDataUrlImgOnError (showLoading s)).loadingVisible = false) := by
  by_cases hs : f.size > maxSize <;>
    simp [loadTextureValidate, hty, hs, showError, showLoading, hideLoading,
      loadTextureReaderOnError, loadTextureImgOnError,
      loadTextureFromDataUrlImgOnError, coreUnchanged]

/-- Witness for C8 at a concrete valid upload whose decode fails. -/
theorem C8_decode_failure_leaves_state_intact_witness :
    coreUnchanged initState (loadTextureReaderOnError
      (loadTextureValidate initState ⟨"earth.jpg", "image/jpeg", 4⟩).1) ∧
    (loadTextureImgOnError
      (loadTextureValidate initState ⟨"earth.jpg", "image/jpeg", 4⟩).1).loadingVisible
      = false ∧
    (loadTextureFromDataUrlImgOnError (showLoading initState)).errorMessage
      = some "Failed to load cached texture" := by
  have h := C8_decode_failure_leaves_state_intact initState
    ⟨"earth.jpg", "image/jpeg", 4⟩ (by decide)
  exact ⟨h.1.2.1, h.2.1.2.2, h.2.2.2.1⟩

/-- C10: a preset/gallery URL load never touches `currentUploadEntry` (nor
the history or the DB), so a `saveCurrentSettings` issued while the preset
texture is displayed attaches the freshly captured settings to the entry that
was current before the preset load — the most recently uploaded or
history-selected entry — and persists under that entry's id, not anything
belonging to the displayed preset texture. -/
theorem C10_preset_load_keeps_current_upload_entry (s : ViewerState) (t : Nat)
    (e : UploadEntry) (h : s.currentUploadEntry = some e) :
    (loadTextureFromUrlOnload s t).currentUploadEntry = some e ∧
    (loadTextureFromUrlOnload s t).uploadHistory = s.uploadHistory ∧
    (loadTextureFromUrlOnload s t).db = s.db ∧
    (saveCurrentSettings (loadTextureFromUrlOnload s t)).currentUploadEntry
      = some { e with
          savedSettings := some (mkSavedSettings (loadTextureFromUrlOnload s t)) } ∧
    Event.putHistory e.id ∈ (saveCurrentSettings (loadTextureFromUrlOnload s t)).log := by
  have hcu : (loadTextureFromUrlOnload s t).currentUploadEntry = some e := by
    by_cases har : s.autoRotate = true <;>
      simp [loadTextureFromUrlOnload, hideLoading, toggleAutoRotate, har, h]
  have hup : (loadTextureFromUrlOnload s t).uploadHistory = s.uploadHistory := by
    by_cases har : s.autoRotate = true <;>
      simp [loadTextureFromUrlOnload, hideLoading, toggleAutoRotate, har]
  have hdbp : (loadTextureFromUrlOnload s t).db = s.db := by
    by_cases har : s.autoRotate = true <;>
      simp [loadTextureFromUrlOnload, hideLoading, toggleAutoRotate, har]
  refine ⟨hcu, hup, hdbp, ?_, ?_⟩
  · simp [saveCurrentSettings, hcu]
  · simp [saveCurrentSettings, hcu]

/-- Witness for C10: a preset load over a state whose current entry is a
concrete upload, then a settings save. -/
theorem C10_preset_load_keeps_current_upload_entry_witness :
    (loadTextureFromUrlOnload
        { initState with currentUploadEntry := some ⟨1, "x", "t", "d", 1, none⟩ }
        5).currentUploadEntry = some ⟨1, "x", "t", "d", 1, none⟩ ∧
    Event.putHistory 1 ∈ (saveCurrentSettings (loadTextureFromUrlOnload
        { initState with currentUploadEntry := some ⟨1, "x", "t", "d", 1, none⟩ }
        5)).log := by
  have h := C10_preset_load_keeps_current_upload_entry
    { initState with currentUploadEntry := some ⟨1, "x", "t", "d", 1, none⟩ } 5
    ⟨1, "x", "t", "d", 1, none⟩ rfl
  exact ⟨h.1, h.2.2.2.2⟩

end GlobeViewer
